import Mathlib

/-!
Verification development for the Parallax self-healing microcloud simulator.

The Go sources are shallowly embedded: Go float64 metric arithmetic is
modelled with exact rationals, wall-clock instants and durations with
integers (milliseconds), Go maps with association lists (lookup finds the
most recent binding), and fallible or panicking paths with Option.
Randomness (random-walk deltas, scenario overlay samples, generated UUID
strings) is passed in as explicit parameters, so every statement quantifies
over all possible random draws.
-/

namespace Parallax

/-! ## Proto enums (gen/go/common/v1) -/

/-- Node status enum from common/v1. -/
inductive NodeStatus where
  | unspecified
  | healthy
  | degraded
  | unhealthy
  | offline
deriving DecidableEq, Repr

/-- Service health enum from common/v1. -/
inductive ServiceHealth where
  | unspecified
  | healthy
  | degraded
  | critical
  | down
deriving DecidableEq, Repr

/-- Incident severity enum from common/v1. -/
inductive IncidentSeverity where
  | unspecified
  | info
  | warning
  | critical
  | fatal
deriving DecidableEq, Repr

/-- Action type enum from common/v1. -/
inductive ActionType where
  | unspecified
  | restartService
  | scaleUp
  | scaleDown
  | drainNode
  | rebalanceTraffic
deriving DecidableEq, Repr

/-- Action status enum from common/v1; the storage layer uses the numeric
codes (PENDING = 1, APPROVED = 2, REJECTED = 3, EXECUTING = 4,
COMPLETED = 5, FAILED = 6). -/
inductive ActionStatus where
  | unspecified
  | pending
  | approved
  | rejected
  | executing
  | completed
  | failed
deriving DecidableEq, Repr

/-- Numeric code of an action status as stored in the actions table. -/
def ActionStatus.code : ActionStatus → ℤ
  | .unspecified => 0
  | .pending => 1
  | .approved => 2
  | .rejected => 3
  | .executing => 4
  | .completed => 5
  | .failed => 6

/-- Simulation run-state enum from common/v1. -/
inductive SimState where
  | unspecified
  | running
  | paused
  | stopped
deriving DecidableEq, Repr

/-! ## Simulation engine data model (cmd/sim-engine/engine/state.go) -/

/-- A virtual node (simv1.Node). -/
structure Node where
  id : String
  name : String
  status : NodeStatus
  cpuUsagePercent : ℚ
  memoryUsagePercent : ℚ
  diskUsagePercent : ℚ
  runningServices : ℤ
  availabilityZone : String
  labels : List (String × String)
deriving DecidableEq, Repr

/-- A virtual service (simv1.Service). -/
structure Service where
  id : String
  name : String
  nodeId : String
  health : ServiceHealth
  requestsPerSecond : ℚ
  errorRatePercent : ℚ
  latencyP50Ms : ℚ
  latencyP99Ms : ℚ
  replicaCount : ℤ
  desiredReplicas : ℤ
deriving DecidableEq, Repr

/-- Go clamp from state.go: if v < min return min; if v > max return max;
else v. -/
def clamp (v lo hi : ℚ) : ℚ :=
  if v < lo then lo else if v > hi then hi else v

/-- Random-walk deltas and overlay samples drawn for one node on one tick:
randDelta(5), randDelta(2), randDelta(0.5) and the high_load overlay sample
rand.Float64()*10. -/
structure NodeDeltas where
  dCpu : ℚ
  dMem : ℚ
  dDisk : ℚ
  highLoadBump : ℚ
deriving DecidableEq, Repr

/-- Random-walk deltas and the cascade_failure coin flip drawn for one
service on one tick. -/
structure ServiceDeltas where
  dRps : ℚ
  dErr : ℚ
  dP50 : ℚ
  dP99 : ℚ
  cascadeTrigger : Bool
deriving DecidableEq, Repr

/-- One node update of State.updateNodes: random walk with clamps, status
derivation from the post-walk cpu/mem, then the high_load scenario overlay
on cpu (applied after status is derived, as in the source). -/
def updateNode (scenarioName : String) (d : NodeDeltas) (n : Node) : Node :=
  let cpu := clamp (n.cpuUsagePercent + d.dCpu) 0 100
  let mem := clamp (n.memoryUsagePercent + d.dMem) 0 100
  let disk := clamp (n.diskUsagePercent + d.dDisk) 0 100
  let status :=
    if cpu > 90 ∨ mem > 95 then NodeStatus.degraded
    else if cpu > 80 ∨ mem > 85 then NodeStatus.degraded
    else NodeStatus.healthy
  let cpu2 := if scenarioName = "high_load" then clamp (cpu + d.highLoadBump) 0 100 else cpu
  { n with
    cpuUsagePercent := cpu2
    memoryUsagePercent := mem
    diskUsagePercent := disk
    status := status }

/-- One service update of State.updateServices: random walk with clamps
(p99 clamped below by the fresh p50), health derivation from the post-walk
error rate, then the cascade_failure overlay on the error rate. -/
def updateService (scenarioName : String) (d : ServiceDeltas) (svc : Service) : Service :=
  let rps := clamp (svc.requestsPerSecond + d.dRps) 0 10000
  let err := clamp (svc.errorRatePercent + d.dErr) 0 100
  let p50 := clamp (svc.latencyP50Ms + d.dP50) 1 1000
  let p99 := clamp (svc.latencyP99Ms + d.dP99) p50 5000
  let health :=
    if err > 10 then ServiceHealth.critical
    else if err > 5 then ServiceHealth.degraded
    else ServiceHealth.healthy
  let err2 :=
    if scenarioName = "cascade_failure" ∧ d.cascadeTrigger then clamp (err + 20) 0 100 else err
  { svc with
    requestsPerSecond := rps
    errorRatePercent := err2
    latencyP50Ms := p50
    latencyP99Ms := p99
    health := health }

/-- Engine ground-truth state (engine.State); wall-clock fields are not
modelled. -/
structure EngState where
  nodes : List Node
  services : List Service
  tickID : ℤ
  simTimeUnixMs : ℤ
  speedMult : ℚ
  simState : SimState
  scenarioName : String
deriving DecidableEq, Repr

/-- Truncation toward zero of a rational, as Go int64(float64) conversion. -/
def ratTrunc (q : ℚ) : ℤ :=
  q.num / (q.den : ℤ)

/-- State.Tick: increment tick_id, advance sim time by
tick_interval × speed, then run the node and service random walks. Each
entity receives its own freshly drawn deltas, supplied here as functions of
the entity. -/
def tickState (nds : Node → NodeDeltas) (sds : Service → ServiceDeltas)
    (tickDurationMs : ℤ) (s : EngState) : EngState :=
  { s with
    tickID := s.tickID + 1
    simTimeUnixMs := s.simTimeUnixMs + ratTrunc ((tickDurationMs : ℚ) * s.speedMult)
    nodes := s.nodes.map (fun n => updateNode s.scenarioName (nds n) n)
    services := s.services.map (fun svc => updateService s.scenarioName (sds svc) svc) }

/-- State.SetSpeedMultiplier: clamp the multiplier into [0.1, 10.0] with
two sequential comparisons, then store it. -/
def setSpeedMultiplier (mult : ℚ) (s : EngState) : EngState :=
  let m1 := if mult < 1/10 then (1 : ℚ)/10 else mult
  let m2 := if m1 > 10 then (10 : ℚ) else m1
  { s with speedMult := m2 }

/-- State.GetSpeedMultiplier. -/
def getSpeedMultiplier (s : EngState) : ℚ :=
  s.speedMult

/-- GetStateResponse as assembled by ControlServer.GetState. -/
structure GetStateResponse where
  state : SimState
  speedMultiplier : ℚ
  currentTick : ℤ
  activeScenarioName : String
deriving DecidableEq, Repr

/-- ControlServer.GetState: read the four state accessors. -/
def getStateRpc (s : EngState) : GetStateResponse :=
  { state := s.simState
    speedMultiplier := getSpeedMultiplier s
    currentTick := s.tickID
    activeScenarioName := s.scenarioName }

/-- ControlServer.SetSpeed: store the clamped multiplier and answer with
the stored value. -/
def setSpeedRpc (x : ℚ) (s : EngState) : EngState × ℚ :=
  let s2 := setSpeedMultiplier x s
  (s2, getSpeedMultiplier s2)

/-- A convenient closed engine state used by concrete witnesses. -/
def sampleEngState : EngState :=
  { nodes := []
    services := []
    tickID := 0
    simTimeUnixMs := 0
    speedMult := 1
    simState := SimState.stopped
    scenarioName := "normal" }

/-- Mathematical clamp of the speed multiplier into [0.1, 10]. -/
def speedClamp (x : ℚ) : ℚ :=
  max (1/10) (min x 10)

theorem setSpeed_eq_speedClamp (x : ℚ) (s : EngState) :
    (setSpeedMultiplier x s).speedMult = speedClamp x := by
  unfold setSpeedMultiplier speedClamp
  rcases lt_or_le x (1/10) with h | h
  · have h10 : ¬ ((1 : ℚ)/10 > 10) := by norm_num
    simp only [if_pos h, if_neg h10]
    have : min x 10 = x := min_eq_left (by linarith)
    rw [this]
    exact (max_eq_left (le_of_lt h)).symm
  · rcases le_or_lt x 10 with h2 | h2
    · have hgt : ¬ (x > 10) := not_lt.mpr h2
      simp only [if_neg (not_lt.mpr h), if_neg hgt]
      rw [min_eq_left h2, max_eq_right h]
    · simp only [if_neg (not_lt.mpr h), if_pos h2]
      rw [min_eq_right (le_of_lt h2)]
      exact (max_eq_right (by norm_num)).symm

/-! ## Engine command handling (cmd/sim-engine/engine/engine.go) -/

/-- A simulation event (simv1.SimulationEvent); wall time is not modelled. -/
structure SimulationEvent where
  tickID : ℤ
  simTimeUnixMs : ℤ
  eventType : String
  targetId : String
  description : String
  metadata : List (String × String)
deriving DecidableEq, Repr

/-- The event skeleton built at the top of Engine.ApplyCommand, before the
switch fills in event_type and description. -/
def baseEvent (s : EngState) (targetID : String) (params : List (String × String)) :
    SimulationEvent :=
  { tickID := s.tickID
    simTimeUnixMs := s.simTimeUnixMs
    eventType := ""
    targetId := targetID
    description := ""
    metadata := params }

/-- Membership test for the services map keyed by service id. -/
def hasService (s : EngState) (targetID : String) : Bool :=
  s.services.any (fun svc => svc.id == targetID)

/-- Membership test for the nodes map keyed by node id. -/
def hasNode (s : EngState) (targetID : String) : Bool :=
  s.nodes.any (fun n => n.id == targetID)

/-- In-place mutation of the map entry with the given service id. -/
def mapService (f : Service → Service) (targetID : String) (l : List Service) :
    List Service :=
  l.map (fun svc => if svc.id == targetID then f svc else svc)

/-- Engine.ApplyCommand: mutate state per action type and build the
simulation event; unknown targets and the unspecified action type fall
through with the state untouched and the empty event skeleton, while
REBALANCE_TRAFFIC ignores the target and rescales every service. -/
def applyCommand (s : EngState) (actionType : ActionType) (targetID : String)
    (params : List (String × String)) : EngState × SimulationEvent :=
  let ev := baseEvent s targetID params
  match actionType with
  | .restartService =>
      if hasService s targetID then
        ({ s with services := mapService (fun svc =>
            { svc with
              health := ServiceHealth.healthy
              errorRatePercent := 1/10
              latencyP50Ms := 5
              latencyP99Ms := 20 }) targetID s.services },
         { ev with
           eventType := "service_restarted"
           description := "Service restarted successfully" })
      else (s, ev)
  | .scaleUp =>
      if hasService s targetID then
        ({ s with services := mapService (fun svc =>
            { svc with
              replicaCount := svc.replicaCount + 1
              desiredReplicas := svc.replicaCount + 1 }) targetID s.services },
         { ev with
           eventType := "service_scaled_up"
           description := "Service scaled up" })
      else (s, ev)
  | .scaleDown =>
      match s.services.find? (fun svc => svc.id == targetID) with
      | some svc =>
          if svc.replicaCount > 1 then
            ({ s with services := mapService (fun svc2 =>
                { svc2 with
                  replicaCount := svc2.replicaCount - 1
                  desiredReplicas := svc2.replicaCount - 1 }) targetID s.services },
             { ev with
               eventType := "service_scaled_down"
               description := "Service scaled down" })
          else (s, ev)
      | none => (s, ev)
  | .drainNode =>
      if hasNode s targetID then
        ({ s with nodes := s.nodes.map (fun n =>
            if n.id == targetID then
              { n with
                status := NodeStatus.offline
                runningServices := 0 }
            else n) },
         { ev with
           eventType := "node_drained"
           description := "Node drained and offline" })
      else (s, ev)
  | .rebalanceTraffic =>
      ({ s with services := s.services.map (fun svc =>
          { svc with requestsPerSecond := svc.requestsPerSecond * (9/10) }) },
       { ev with
         eventType := "traffic_rebalanced"
         description := "Traffic rebalanced across services" })
  | .unspecified => (s, ev)

/-- Engine.ApplyCommand with its returned error: a failed event publish is
only logged, and the single return statement yields a nil error on every
path; the third component is the returned error. -/
def applyCommandResult (s : EngState) (actionType : ActionType) (targetID : String)
    (params : List (String × String)) (publishOk : Bool) :
    EngState × SimulationEvent × Option String :=
  let r := applyCommand s actionType targetID params
  (r.1, r.2, none)

/-! ## Engine control surface and run loop -/

/-- ControlServer.LoadScenario: reject names outside the enumerated set,
otherwise store the scenario; the Bool is the success flag of the reply. -/
def loadScenarioRpc (nm : String) (s : EngState) : EngState × Bool :=
  if nm = "normal" ∨ nm = "high_load" ∨ nm = "cascade_failure" then
    ({ s with scenarioName := nm }, true)
  else (s, false)

/-- ControlServer.SetState: store the requested run state. -/
def setRunStateRpc (st : SimState) (s : EngState) : EngState :=
  { s with simState := st }

/-- One externally visible engine operation: a timer firing of the run loop
(which ticks only while RUNNING), a consumed command, or a control RPC. -/
inductive EngineOp where
  | tickTimer (nds : Node → NodeDeltas) (sds : Service → ServiceDeltas)
  | applyCmd (actionType : ActionType) (targetID : String) (params : List (String × String))
  | setSpeed (x : ℚ)
  | setRunState (st : SimState)
  | loadScenarioOp (nm : String)

/-- The state transition performed by one engine operation, as serialized
under the engine lock: Engine.Run skips the tick when the state is not
RUNNING. -/
def engineStep (s : EngState) (op : EngineOp) : EngState :=
  match op with
  | .tickTimer nds sds =>
      if s.simState = SimState.running then tickState nds sds 100 s else s
  | .applyCmd actionType targetID params => (applyCommand s actionType targetID params).1
  | .setSpeed x => setSpeedMultiplier x s
  | .setRunState st => setRunStateRpc st s
  | .loadScenarioOp nm => (loadScenarioRpc nm s).1

/-- A sequence of engine operations applied in order. -/
def engineRun (s : EngState) (ops : List EngineOp) : EngState :=
  ops.foldl engineStep s

/-! ## Initial engine state (State.initializeDefaultState) -/

/-- One default node built by initializeDefaultState, with its three
rand.Float64() draws passed explicitly. -/
def mkInitialNode (id nm zone : String) (r1 r2 r3 : ℚ) (rs : ℤ) : Node :=
  { id := id
    name := nm
    status := NodeStatus.healthy
    cpuUsagePercent := r1 * 30
    memoryUsagePercent := r2 * 40
    diskUsagePercent := r3 * 20
    runningServices := rs
    availabilityZone := zone
    labels := [("tier", "compute")] }

/-- One default service built by initializeDefaultState, with its four
rand.Float64() draws passed explicitly. -/
def mkInitialService (id nm nodeId : String) (r1 r2 r3 r4 : ℚ) (rc : ℤ) : Service :=
  { id := id
    name := nm
    nodeId := nodeId
    health := ServiceHealth.healthy
    requestsPerSecond := r1 * 500
    errorRatePercent := r2 * (1/2)
    latencyP50Ms := r3 * 10 + 5
    latencyP99Ms := r4 * 50 + 20
    replicaCount := rc
    desiredReplicas := 3 }

/-! ## Snapshot (State.Snapshot) -/

/-- A metric snapshot (simv1.MetricSnapshot); the random active-connections
figure and wall time are not modelled. -/
structure MetricSnapshot where
  tickID : ℤ
  simTimeUnixMs : ℤ
  nodes : List Node
  services : List Service
  totalRps : ℚ
  totalErrorRate : ℚ
  avgLatencyMs : ℚ
deriving DecidableEq, Repr

/-- State.Snapshot: copy the node and service collections and aggregate
traffic totals. -/
def snapshot (s : EngState) : MetricSnapshot :=
  let totalRps := (s.services.map (fun svc => svc.requestsPerSecond)).sum
  let totalErrors := (s.services.map (fun svc => svc.errorRatePercent)).sum
  let totalLatency := (s.services.map (fun svc => svc.latencyP50Ms)).sum
  { tickID := s.tickID
    simTimeUnixMs := s.simTimeUnixMs
    nodes := s.nodes
    services := s.services
    totalRps := totalRps
    totalErrorRate := if s.services.length > 0 then totalErrors / s.services.length else 0
    avgLatencyMs := if s.services.length > 0 then totalLatency / s.services.length else 0 }

/-! ## Engine metric invariants -/

/-- Percentage bounds for a node's metrics. -/
def nodeMetricsInv (n : Node) : Prop :=
  0 ≤ n.cpuUsagePercent ∧ n.cpuUsagePercent ≤ 100 ∧
  0 ≤ n.memoryUsagePercent ∧ n.memoryUsagePercent ≤ 100 ∧
  0 ≤ n.diskUsagePercent ∧ n.diskUsagePercent ≤ 100

/-- Percentage bound for a service's error rate and the latency ordering
p50 ≤ p99. -/
def serviceMetricsInv (svc : Service) : Prop :=
  0 ≤ svc.errorRatePercent ∧ svc.errorRatePercent ≤ 100 ∧
  svc.latencyP50Ms ≤ svc.latencyP99Ms

/-- The per-snapshot invariant over the whole engine state. -/
def stateMetricsInv (s : EngState) : Prop :=
  (∀ n ∈ s.nodes, nodeMetricsInv n) ∧ (∀ svc ∈ s.services, serviceMetricsInv svc)

theorem clamp_mem (v lo hi : ℚ) (h : lo ≤ hi) :
    lo ≤ clamp v lo hi ∧ clamp v lo hi ≤ hi := by
  unfold clamp
  split_ifs <;> constructor <;> linarith

theorem setSpeedMultiplier_eq (x : ℚ) (s : EngState) :
    setSpeedMultiplier x s = { s with speedMult := speedClamp x } := by
  have h := setSpeed_eq_speedClamp x s
  simp only [setSpeedMultiplier] at h ⊢
  rw [h]

/-- C10: SetSpeed(x) stores the value of x clamped into [0.1, 10.0], a
subsequent GetState reports exactly that clamped value as the speed
multiplier, and no other state component changes; in particular
SetSpeed(100.0) followed by GetState yields speed_multiplier = 10.0. -/
theorem speed_clamp_spec :
    (∀ (x : ℚ) (s : EngState),
        (setSpeedRpc x s).2 = speedClamp x ∧
        (getStateRpc (setSpeedRpc x s).1).speedMultiplier = speedClamp x ∧
        (setSpeedRpc x s).1 = { s with speedMult := speedClamp x }) ∧
    (getStateRpc (setSpeedRpc 100 sampleEngState).1).speedMultiplier = 10 := by
  constructor
  · intro x s
    refine ⟨?_, ?_, ?_⟩
    · simp [setSpeedRpc, getSpeedMultiplier, setSpeedMultiplier_eq]
    · simp [setSpeedRpc, getStateRpc, getSpeedMultiplier, setSpeedMultiplier_eq]
    · simp [setSpeedRpc, setSpeedMultiplier_eq]
  · norm_num [getStateRpc, setSpeedRpc, getSpeedMultiplier, setSpeedMultiplier, sampleEngState]

/-! ## Helper lemmas for the engine claims -/

theorem nodeMetricsInv_updateNode (scen : String) (d : NodeDeltas) (n : Node) :
    nodeMetricsInv (updateNode scen d n) := by
  simp only [updateNode, nodeMetricsInv]
  refine ⟨?_, ?_, (clamp_mem _ 0 100 (by norm_num)).1, (clamp_mem _ 0 100 (by norm_num)).2,
    (clamp_mem _ 0 100 (by norm_num)).1, (clamp_mem _ 0 100 (by norm_num)).2⟩
  · split_ifs <;> exact (clamp_mem _ 0 100 (by norm_num)).1
  · split_ifs <;> exact (clamp_mem _ 0 100 (by norm_num)).2

theorem serviceMetricsInv_updateService (scen : String) (d : ServiceDeltas) (svc : Service) :
    serviceMetricsInv (updateService scen d svc) := by
  simp only [updateService, serviceMetricsInv]
  have hp50 := clamp_mem (svc.latencyP50Ms + d.dP50) 1 1000 (by norm_num)
  have hp99 := clamp_mem (svc.latencyP99Ms + d.dP99)
    (clamp (svc.latencyP50Ms + d.dP50) 1 1000) 5000 (by linarith [hp50.2])
  refine ⟨?_, ?_, hp99.1⟩
  · split_ifs
    · exact (clamp_mem _ 0 100 (by norm_num)).1
    · exact (clamp_mem _ 0 100 (by norm_num)).1
  · split_ifs
    · exact (clamp_mem _ 0 100 (by norm_num)).2
    · exact (clamp_mem _ 0 100 (by norm_num)).2

theorem stateMetricsInv_tickState (nds : Node → NodeDeltas) (sds : Service → ServiceDeltas)
    (dur : ℤ) (s : EngState) : stateMetricsInv (tickState nds sds dur s) := by
  constructor
  · intro n hn
    simp only [tickState, List.mem_map] at hn
    obtain ⟨m, _, rfl⟩ := hn
    exact nodeMetricsInv_updateNode _ _ _
  · intro svc hs
    simp only [tickState, List.mem_map] at hs
    obtain ⟨m, _, rfl⟩ := hs
    exact serviceMetricsInv_updateService _ _ _

theorem stateMetricsInv_applyCommand (s : EngState) (a : ActionType) (tid : String)
    (params : List (String × String)) (h : stateMetricsInv s) :
    stateMetricsInv (applyCommand s a tid params).1 := by
  obtain ⟨hn, hs⟩ := h
  cases a with
  | unspecified => exact ⟨hn, hs⟩
  | restartService =>
      simp only [applyCommand]
      split
      · refine ⟨hn, ?_⟩
        intro svc hsvc
        simp only [mapService, List.mem_map] at hsvc
        obtain ⟨m, hm, rfl⟩ := hsvc
        by_cases hid : (m.id == tid) = true
        · simp only [hid, if_true, serviceMetricsInv]
          norm_num
        · simp only [hid, if_false]
          exact hs m hm
      · exact ⟨hn, hs⟩
  | scaleUp =>
      simp only [applyCommand]
      split
      · refine ⟨hn, ?_⟩
        intro svc hsvc
        simp only [mapService, List.mem_map] at hsvc
        obtain ⟨m, hm, rfl⟩ := hsvc
        by_cases hid : (m.id == tid) = true
        · simpa only [hid, if_true, serviceMetricsInv] using hs m hm
        · simp only [hid, if_false]
          exact hs m hm
      · exact ⟨hn, hs⟩
  | scaleDown =>
      simp only [applyCommand]
      split
      · split
        · refine ⟨hn, ?_⟩
          intro svc hsvc
          simp only [mapService, List.mem_map] at hsvc
          obtain ⟨m, hm, rfl⟩ := hsvc
          by_cases hid : (m.id == tid) = true
          · simpa only [hid, if_true, serviceMetricsInv] using hs m hm
          · simp only [hid, if_false]
            exact hs m hm
        · exact ⟨hn, hs⟩
      · exact ⟨hn, hs⟩
  | drainNode =>
      simp only [applyCommand]
      split
      · refine ⟨?_, hs⟩
        intro n hn'
        simp only [List.mem_map] at hn'
        obtain ⟨m, hm, rfl⟩ := hn'
        by_cases hid : (m.id == tid) = true
        · simpa only [hid, if_true, nodeMetricsInv] using hn m hm
        · simp only [hid, if_false]
          exact hn m hm
      · exact ⟨hn, hs⟩
  | rebalanceTraffic =>
      simp only [applyCommand]
      refine ⟨hn, ?_⟩
      intro svc hsvc
      simp only [List.mem_map] at hsvc
      obtain ⟨m, hm, rfl⟩ := hsvc
      simpa only [serviceMetricsInv] using hs m hm

theorem updateNode_status_iff (scen : String) (d : NodeDeltas) (n : Node) :
    ((updateNode scen d n).status = NodeStatus.degraded ↔
      clamp (n.cpuUsagePercent + d.dCpu) 0 100 > 80 ∨
      clamp (n.memoryUsagePercent + d.dMem) 0 100 > 85) ∧
    ((updateNode scen d n).status = NodeStatus.degraded ∨
      (updateNode scen d n).status = NodeStatus.healthy) := by
  simp only [updateNode]
  split_ifs with h1 h2
  · refine ⟨⟨fun _ => ?_, fun _ => rfl⟩, Or.inl rfl⟩
    rcases h1 with h | h
    · exact Or.inl (by linarith)
    · exact Or.inr (by linarith)
  · exact ⟨⟨fun _ => h2, fun _ => rfl⟩, Or.inl rfl⟩
  · exact ⟨⟨fun hcontra => hcontra.elim, fun hc => absurd hc h2⟩, Or.inr rfl⟩

theorem tickState_status_not_offline (nds : Node → NodeDeltas) (sds : Service → ServiceDeltas)
    (dur : ℤ) (s : EngState) (n : Node) (hn : n ∈ (tickState nds sds dur s).nodes) :
    n.status ≠ NodeStatus.offline := by
  simp only [tickState, List.mem_map] at hn
  obtain ⟨m, _, rfl⟩ := hn
  rcases (updateNode_status_iff s.scenarioName (nds m) m).2 with h | h <;> simp [h]

theorem applyCommand_tickID (s : EngState) (a : ActionType) (tid : String)
    (params : List (String × String)) :
    (applyCommand s a tid params).1.tickID = s.tickID := by
  cases a <;> simp only [applyCommand] <;> (repeat' split) <;> rfl

theorem engineStep_tickID_mono (s : EngState) (op : EngineOp) :
    s.tickID ≤ (engineStep s op).tickID := by
  cases op with
  | tickTimer nds sds =>
      by_cases h : s.simState = SimState.running
      · simp only [engineStep, if_pos h, tickState]
        omega
      · simp [engineStep, h]
  | applyCmd a tid params =>
      simp only [engineStep]
      rw [applyCommand_tickID]
  | setSpeed x => simp [engineStep, setSpeedMultiplier_eq]
  | setRunState st => simp [engineStep, setRunStateRpc]
  | loadScenarioOp nm =>
      simp only [engineStep, loadScenarioRpc]
      split <;> simp

theorem engineRun_tickID_mono (ops : List EngineOp) (s : EngState) :
    s.tickID ≤ (engineRun s ops).tickID := by
  induction ops generalizing s with
  | nil => simp [engineRun]
  | cons op rest ih =>
      simp only [engineRun, List.foldl_cons]
      exact le_trans (engineStep_tickID_mono s op) (ih (engineStep s op))

/-- Zero random-walk deltas for a node, used by concrete witnesses. -/
def zeroNodeDeltas : NodeDeltas :=
  { dCpu := 0, dMem := 0, dDisk := 0, highLoadBump := 0 }

/-- Zero random-walk deltas for a service, used by concrete witnesses. -/
def zeroServiceDeltas : ServiceDeltas :=
  { dRps := 0, dErr := 0, dP50 := 0, dP99 := 0, cascadeTrigger := false }

/-- A concrete node used by witnesses. -/
def witNode : Node :=
  { id := "node-1"
    name := "node-alpha"
    status := NodeStatus.healthy
    cpuUsagePercent := 50
    memoryUsagePercent := 40
    diskUsagePercent := 10
    runningServices := 1
    availabilityZone := "us-east-1a"
    labels := [("tier", "compute")] }

/-- A concrete engine state holding one node, used by witnesses. -/
def witState : EngState :=
  { nodes := [witNode]
    services := []
    tickID := 7
    simTimeUnixMs := 0
    speedMult := 1
    simState := SimState.running
    scenarioName := "normal" }

/-! ## Claim theorems for the engine -/

/-- C6: every snapshot emitted by the engine satisfies latency_p99_ms ≥
latency_p50_ms for every service and keeps every percentage metric (node
cpu, memory, disk and service error rate) in [0, 100]: the bounds hold for
the randomly initialized nodes and services, are preserved (indeed
re-established) by every Tick under any scenario overlay, are preserved by
every ApplyCommand, and carry over to the published snapshot. -/
theorem engine_snapshot_invariants :
    (∀ (id nm zone : String) (r1 r2 r3 : ℚ) (rs : ℤ),
        0 ≤ r1 → r1 < 1 → 0 ≤ r2 → r2 < 1 → 0 ≤ r3 → r3 < 1 →
        nodeMetricsInv (mkInitialNode id nm zone r1 r2 r3 rs)) ∧
    (∀ (id nm nid : String) (r1 r2 r3 r4 : ℚ) (rc : ℤ),
        0 ≤ r1 → r1 < 1 → 0 ≤ r2 → r2 < 1 → 0 ≤ r3 → r3 < 1 → 0 ≤ r4 → r4 < 1 →
        serviceMetricsInv (mkInitialService id nm nid r1 r2 r3 r4 rc)) ∧
    (∀ (nds : Node → NodeDeltas) (sds : Service → ServiceDeltas) (dur : ℤ) (s : EngState),
        stateMetricsInv (tickState nds sds dur s)) ∧
    (∀ (s : EngState) (a : ActionType) (tid : String) (params : List (String × String)),
        stateMetricsInv s → stateMetricsInv (applyCommand s a tid params).1) ∧
    (∀ s : EngState, stateMetricsInv s →
        (∀ n ∈ (snapshot s).nodes, nodeMetricsInv n) ∧
        (∀ svc ∈ (snapshot s).services, serviceMetricsInv svc)) := by
  refine ⟨?_, ?_, stateMetricsInv_tickState, stateMetricsInv_applyCommand, ?_⟩
  · intro id nm zone r1 r2 r3 rs h1 h1' h2 h2' h3 h3'
    simp only [mkInitialNode, nodeMetricsInv]
    refine ⟨by nlinarith, by nlinarith, by nlinarith, by nlinarith, by nlinarith, by nlinarith⟩
  · intro id nm nid r1 r2 r3 r4 rc h1 h1' h2 h2' h3 h3' h4 h4'
    simp only [mkInitialService, serviceMetricsInv]
    refine ⟨by nlinarith, by nlinarith, by nlinarith⟩
  · intro s hinv
    simpa only [snapshot] using hinv

/-- C6 witness: the invariants instantiated at concrete random draws and a
concrete state. -/
theorem engine_snapshot_invariants_witness :
    nodeMetricsInv (mkInitialNode "n1" "node-alpha" "us-east-1a" (1/2) (1/2) (1/2) 2) :=
  engine_snapshot_invariants.1 "n1" "node-alpha" "us-east-1a" (1/2) (1/2) (1/2) 2
    (by norm_num) (by norm_num) (by norm_num) (by norm_num) (by norm_num) (by norm_num)

/-- C7: tick_id increases by exactly one on every timer firing executed
while the simulation state is RUNNING, every other operation (skipped
ticks, ApplyCommand, SetSpeed, SetState, LoadScenario) leaves it unchanged,
and over any sequence of operations tick_id is monotone non-decreasing. -/
theorem tick_id_monotone :
    (∀ (s : EngState) (nds : Node → NodeDeltas) (sds : Service → ServiceDeltas),
        s.simState = SimState.running →
        (engineStep s (.tickTimer nds sds)).tickID = s.tickID + 1) ∧
    (∀ (s : EngState) (nds : Node → NodeDeltas) (sds : Service → ServiceDeltas),
        s.simState ≠ SimState.running → engineStep s (.tickTimer nds sds) = s) ∧
    (∀ (s : EngState) (a : ActionType) (tid : String) (params : List (String × String)),
        (engineStep s (.applyCmd a tid params)).tickID = s.tickID) ∧
    (∀ (s : EngState) (x : ℚ), (engineStep s (.setSpeed x)).tickID = s.tickID) ∧
    (∀ (s : EngState) (st : SimState), (engineStep s (.setRunState st)).tickID = s.tickID) ∧
    (∀ (s : EngState) (nm : String), (engineStep s (.loadScenarioOp nm)).tickID = s.tickID) ∧
    (∀ (s : EngState) (ops : List EngineOp), s.tickID ≤ (engineRun s ops).tickID) := by
  refine ⟨?_, ?_, ?_, ?_, ?_, ?_, fun s ops => engineRun_tickID_mono ops s⟩
  · intro s nds sds h
    simp [engineStep, h, tickState]
  · intro s nds sds h
    simp [engineStep, h]
  · intro s a tid params
    simpa only [engineStep] using applyCommand_tickID s a tid params
  · intro s x
    simp [engineStep, setSpeedMultiplier_eq]
  · intro s st
    simp [engineStep, setRunStateRpc]
  · intro s nm
    simp only [engineStep, loadScenarioRpc]
    split <;> simp

/-- C7 witness: a running state ticks from tick 7 to tick 8. -/
theorem tick_id_monotone_witness :
    (engineStep witState
      (.tickTimer (fun _ => zeroNodeDeltas) (fun _ => zeroServiceDeltas))).tickID =
      witState.tickID + 1 :=
  tick_id_monotone.1 witState (fun _ => zeroNodeDeltas) (fun _ => zeroServiceDeltas) rfl

/-- C9: after every tick each node's status is DEGRADED exactly when its
post-random-walk cpu exceeds 80 or memory exceeds 85 and HEALTHY otherwise
(the high_load overlay is applied to cpu only after status is derived), so
no node is OFFLINE after a tick; in particular the OFFLINE status set by
DRAIN_NODE does not survive the next tick executed while RUNNING. -/
theorem node_status_after_tick :
    (∀ (scen : String) (d : NodeDeltas) (n : Node),
        ((updateNode scen d n).status = NodeStatus.degraded ↔
          clamp (n.cpuUsagePercent + d.dCpu) 0 100 > 80 ∨
          clamp (n.memoryUsagePercent + d.dMem) 0 100 > 85) ∧
        ((updateNode scen d n).status = NodeStatus.degraded ∨
          (updateNode scen d n).status = NodeStatus.healthy)) ∧
    (∀ (nds : Node → NodeDeltas) (sds : Service → ServiceDeltas) (dur : ℤ) (s : EngState),
        ∀ n ∈ (tickState nds sds dur s).nodes, n.status ≠ NodeStatus.offline) ∧
    (∀ (s : EngState) (nds : Node → NodeDeltas) (sds : Service → ServiceDeltas),
        s.simState = SimState.running →
        ∀ n ∈ (engineStep s (.tickTimer nds sds)).nodes, n.status ≠ NodeStatus.offline) := by
  refine ⟨updateNode_status_iff, fun nds sds dur s n hn =>
    tickState_status_not_offline nds sds dur s n hn, ?_⟩
  intro s nds sds h n hn
  rw [engineStep, if_pos h] at hn
  exact tickState_status_not_offline nds sds 100 s n hn

/-- C9 witness: the node of the concrete running state is not OFFLINE after
a tick. -/
theorem node_status_after_tick_witness :
    (updateNode "normal" zeroNodeDeltas witNode).status ≠ NodeStatus.offline :=
  node_status_after_tick.2.2 witState (fun _ => zeroNodeDeltas) (fun _ => zeroServiceDeltas)
    rfl (updateNode "normal" zeroNodeDeltas witNode)
    (by simp [engineStep, witState, tickState])

/-- C8 counterexample: at a state with no services and no nodes, a
REBALANCE_TRAFFIC command with an unmatched target_id still publishes the
event type traffic_rebalanced instead of an empty event, so the claim that
every unmatched-target command yields an event with empty event_type is
false. -/
theorem apply_command_no_op_cex :
    hasService sampleEngState "no-such-target" = false ∧
    hasNode sampleEngState "no-such-target" = false ∧
    ¬ ((applyCommand sampleEngState .rebalanceTraffic "no-such-target" []).1 = sampleEngState ∧
       (applyCommand sampleEngState .rebalanceTraffic "no-such-target" []).2.eventType = "") := by
  refine ⟨rfl, rfl, ?_⟩
  intro h
  have h2 := h.2
  simp [applyCommand, baseEvent] at h2

/-- C8 (amended): for RESTART_SERVICE, SCALE_UP, SCALE_DOWN and DRAIN_NODE
an unmatched target_id, and an unknown action type on any target, leave the
state unchanged and publish a SimulationEvent with empty event_type;
REBALANCE_TRAFFIC however ignores target_id, always rescaling every
service's rps by 0.9 and publishing event type traffic_rebalanced; and
ApplyCommand returns a nil error on every input, even when publishing the
event fails. -/
theorem apply_command_no_op_spec :
    (∀ (s : EngState) (tid : String) (params : List (String × String)),
        hasService s tid = false →
        applyCommand s .restartService tid params = (s, baseEvent s tid params)) ∧
    (∀ (s : EngState) (tid : String) (params : List (String × String)),
        hasService s tid = false →
        applyCommand s .scaleUp tid params = (s, baseEvent s tid params)) ∧
    (∀ (s : EngState) (tid : String) (params : List (String × String)),
        hasService s tid = false →
        applyCommand s .scaleDown tid params = (s, baseEvent s tid params)) ∧
    (∀ (s : EngState) (tid : String) (params : List (String × String)),
        hasNode s tid = false →
        applyCommand s .drainNode tid params = (s, baseEvent s tid params)) ∧
    (∀ (s : EngState) (tid : String) (params : List (String × String)),
        applyCommand s .unspecified tid params = (s, baseEvent s tid params)) ∧
    (∀ (s : EngState) (tid : String) (params : List (String × String)),
        (applyCommand s .rebalanceTraffic tid params).1 =
          { s with services := s.services.map (fun svc =>
              { svc with requestsPerSecond := svc.requestsPerSecond * (9/10) }) } ∧
        (applyCommand s .rebalanceTraffic tid params).2.eventType = "traffic_rebalanced") ∧
    (∀ (s : EngState) (a : ActionType) (tid : String) (params : List (String × String))
        (pub : Bool), (applyCommandResult s a tid params pub).2.2 = none) := by
  refine ⟨?_, ?_, ?_, ?_, ?_, ?_, ?_⟩
  · intro s tid params h
    simp [applyCommand, h]
  · intro s tid params h
    simp [applyCommand, h]
  · intro s tid params h
    have hall : ∀ y ∈ s.services, ¬ y.id = tid := by
      simpa [hasService, List.any_eq_false] using h
    have hfind : s.services.find? (fun svc => svc.id == tid) = none := by
      rw [List.find?_eq_none]
      intro x hx
      simpa using hall x hx
    simp [applyCommand, hfind]
  · intro s tid params h
    simp [applyCommand, h]
  · intro s tid params
    simp [applyCommand]
  · intro s tid params
    exact ⟨rfl, rfl⟩
  · intro s a tid params pub
    rfl

/-- C8 witness: the no-op branches at the concrete empty state. -/
theorem apply_command_no_op_witness :
    applyCommand sampleEngState .restartService "svc-x" [] =
      (sampleEngState, baseEvent sampleEngState "svc-x" []) :=
  apply_command_no_op_spec.1 sampleEngState "svc-x" [] rfl

/-! ## Signal service detector (cmd/signal-service/detector) -/

/-- A detection rule (detector/rules.go). -/
structure Rule where
  name : String
  metricName : String
  operator : String
  threshold : ℚ
  windowSeconds : ℤ
  severity : IncidentSeverity
deriving DecidableEq, Repr

/-- Rule.Evaluate: compare a value against the threshold with the rule's
operator; unknown operators never breach. -/
def Rule.evaluate (r : Rule) (value : ℚ) : Bool :=
  if r.operator = "gt" then decide (value > r.threshold)
  else if r.operator = "gte" then decide (value ≥ r.threshold)
  else if r.operator = "lt" then decide (value < r.threshold)
  else if r.operator = "lte" then decide (value ≤ r.threshold)
  else if r.operator = "eq" then decide (value = r.threshold)
  else false

/-- DefaultRules from detector/rules.go. -/
def defaultRules : List Rule :=
  [ { name := "high_error_rate", metricName := "error_rate_percent", operator := "gt",
      threshold := 5, windowSeconds := 30, severity := IncidentSeverity.warning },
    { name := "critical_error_rate", metricName := "error_rate_percent", operator := "gt",
      threshold := 10, windowSeconds := 15, severity := IncidentSeverity.critical },
    { name := "high_cpu_usage", metricName := "cpu_usage_percent", operator := "gt",
      threshold := 85, windowSeconds := 60, severity := IncidentSeverity.warning },
    { name := "critical_cpu_usage", metricName := "cpu_usage_percent", operator := "gt",
      threshold := 95, windowSeconds := 30, severity := IncidentSeverity.critical },
    { name := "high_memory_usage", metricName := "memory_usage_percent", operator := "gt",
      threshold := 90, windowSeconds := 60, severity := IncidentSeverity.warning },
    { name := "high_latency", metricName := "latency_p99_ms", operator := "gt",
      threshold := 500, windowSeconds := 30, severity := IncidentSeverity.warning } ]

/-- The window and latch owned by one (entity_type, entity_id, rule_name)
key: the Go metricWindow keeps values and timestamps in two parallel
slices, modelled as one list of pairs, and the latch is the membership of
the key in the activeIncidents map. -/
structure KeyState where
  samples : List (ℚ × ℤ)
  active : Bool
deriving DecidableEq, Repr

/-- The eviction start index computed by the loop in checkRulesForEntity:
the index of the first sample whose timestamp is after the cutoff, and 0
when no sample is (so that a fully stale window is not evicted, exactly as
in the source). -/
def evictStartIdx (samples : List (ℚ × ℤ)) (cutoff : ℤ) : ℕ :=
  match samples.findIdx? (fun p => decide (cutoff < p.2)) with
  | some i => i
  | none => 0

/-- The window after appending the new sample and evicting stale entries;
timestamps are wall-clock milliseconds, so the cutoff is
now − window_seconds × 1000. -/
def postWindow (r : Rule) (samples : List (ℚ × ℤ)) (value : ℚ) (now : ℤ) :
    List (ℚ × ℤ) :=
  let appended := samples ++ [(value, now)]
  let cutoff := now - r.windowSeconds * 1000
  appended.drop (evictStartIdx appended cutoff)

/-- The number of samples in a window that breach the rule. -/
def breachCount (r : Rule) (w : List (ℚ × ℤ)) : ℕ :=
  (w.filter (fun p => r.evaluate p.1)).length

/-- The breach fraction breach_count / window_size, in exact rationals
(the source computes it in float64). -/
def breachFrac (r : Rule) (w : List (ℚ × ℤ)) : ℚ :=
  (breachCount r w : ℚ) / (w.length : ℚ)

/-- One iteration of checkRulesForEntity for a single (entity, rule) key:
append and evict, skip windows with fewer than 3 samples, then drive the
latch by breach-ratio hysteresis; the Bool reports whether an incident was
published. -/
def detectorStepKey (r : Rule) (st : KeyState) (value : ℚ) (now : ℤ) :
    KeyState × Bool :=
  let w := postWindow r st.samples value now
  if w.length < 3 then ({ samples := w, active := st.active }, false)
  else
    let frac := breachFrac r w
    if frac > 7/10 ∧ st.active = false then ({ samples := w, active := true }, true)
    else if frac < 3/10 ∧ st.active = true then ({ samples := w, active := false }, false)
    else ({ samples := w, active := st.active }, false)

/-! ## Agent service decider (cmd/agent-service/decider/decider.go) -/

/-- An incident (opsv1.Incident); the detected_at timestamp is split into
its tick and wall-time components. -/
structure Incident where
  id : String
  detectedAtTick : ℤ
  detectedAtWallMs : ℤ
  severity : IncidentSeverity
  title : String
  description : String
  sourceService : String
  affectedIds : List String
  ruleName : String
  metrics : List (String × ℚ)
  resolved : Bool
deriving DecidableEq, Repr

/-- A proposed action (opsv1.Action); the reason string is elided because
it only embeds printf-formatted metric values. -/
structure Action where
  id : String
  incidentId : String
  proposedAtTick : ℤ
  actionType : ActionType
  targetId : String
  status : ActionStatus
  parameters : List (String × String)
  createdAtTick : ℤ
  createdAtWallMs : ℤ
deriving DecidableEq, Repr

/-- Decider.decideAction: guard on empty affected_ids, build the PENDING
action skeleton, then fill the action type from the rule-name switch; the
generated UUID is passed in as freshId. -/
def decideAction (freshId : String) (nowMs : ℤ) (inc : Incident) : Option Action :=
  match inc.affectedIds with
  | [] => none
  | targetID :: _ =>
    let base : Action :=
      { id := freshId
        incidentId := inc.id
        proposedAtTick := inc.detectedAtTick
        targetId := targetID
        status := ActionStatus.pending
        actionType := ActionType.unspecified
        parameters := []
        createdAtTick := inc.detectedAtTick
        createdAtWallMs := nowMs }
    if inc.ruleName = "high_error_rate" ∨ inc.ruleName = "critical_error_rate" then
      some { base with actionType := ActionType.restartService }
    else if inc.ruleName = "high_cpu_usage" ∨ inc.ruleName = "critical_cpu_usage" then
      if inc.severity = IncidentSeverity.critical then
        some { base with actionType := ActionType.scaleUp }
      else
        some { base with actionType := ActionType.rebalanceTraffic }
    else if inc.ruleName = "high_memory_usage" then
      some { base with actionType := ActionType.restartService }
    else if inc.ruleName = "high_latency" then
      some { base with actionType := ActionType.scaleUp }
    else none

/-- The decider's mutable state: the cooldown map (modelled as an
association list whose lookup finds the most recent binding) plus the rows
persisted through the incidents and actions repositories. -/
structure DeciderState where
  recentActions : List (String × ℤ)
  storedIncidents : List Incident
  storedActions : List Action
deriving DecidableEq, Repr

/-- The state built by decider.New: empty cooldown map. -/
def initialDeciderState : DeciderState :=
  { recentActions := [], storedIncidents := [], storedActions := [] }

/-- Go map read. -/
def lookupKey (m : List (String × ℤ)) (k : String) : Option ℤ :=
  match m.find? (fun p => p.1 == k) with
  | some p => some p.2
  | none => none

/-- Go map write. -/
def setKey (m : List (String × ℤ)) (k : String) (v : ℤ) : List (String × ℤ) :=
  (k, v) :: m

/-- The default cooldownDuration of 30 seconds, in milliseconds. -/
def cooldownMs : ℤ := 30000

/-- The cooldown key "%s:%s" of rule name and first affected id. -/
def cooldownKey (inc : Incident) (target : String) : String :=
  inc.ruleName ++ ":" ++ target

/-- The cooldown test of ProcessIncident: a key is on cooldown when its
last recorded emission is more recent than the cooldown duration. -/
def onCooldown (m : List (String × ℤ)) (key : String) (nowMs : ℤ) : Bool :=
  match lookupKey m key with
  | some last => decide (nowMs - last < cooldownMs)
  | none => false

/-- Decider.ProcessIncident: persist the incident, then index
affected_ids[0] to build the cooldown key — a panic (modelled as none)
when affected_ids is empty — then drop the incident when the key is on
cooldown, otherwise decide, persist and publish the action, recording the
emission time only after a successful publish. The result carries the new
state, the successfully published action if any, and the returned error. -/
def processIncident (st : DeciderState) (inc : Incident) (nowMs : ℤ) (freshId : String)
    (publishOk : Bool) : Option (DeciderState × Option Action × Option String) :=
  let st1 := { st with storedIncidents := st.storedIncidents ++ [inc] }
  match inc.affectedIds with
  | [] => none
  | target :: _ =>
    let key := cooldownKey inc target
    if onCooldown st1.recentActions key nowMs = true then some (st1, none, none)
    else
      match decideAction freshId nowMs inc with
      | none => some (st1, none, none)
      | some a =>
        let st2 := { st1 with storedActions := st1.storedActions ++ [a] }
        if publishOk then
          some ({ st2 with recentActions := setKey st2.recentActions key nowMs }, some a, none)
        else
          some (st2, none, some "publish action")

/-- One incident delivery consumed by the decider, with its wall-clock
arrival time, the UUID drawn for the action, and the publish outcome. -/
structure DecEvent where
  inc : Incident
  nowMs : ℤ
  freshId : String
  publishOk : Bool

/-- A run of the decider over a list of deliveries; the second component
logs (cooldown key, emission time) for every successfully published
action. A crash (empty affected_ids) stops the run. -/
def deciderRun (st : DeciderState) (evs : List DecEvent) :
    DeciderState × List (String × ℤ) :=
  match evs with
  | [] => (st, [])
  | ev :: rest =>
    match processIncident st ev.inc ev.nowMs ev.freshId ev.publishOk with
    | none => (st, [])
    | some (st2, published, _err) =>
      let r := deciderRun st2 rest
      match published, ev.inc.affectedIds with
      | some _, target :: _ => (r.1, (cooldownKey ev.inc target, ev.nowMs) :: r.2)
      | _, _ => (r.1, r.2)

/-- No two entries of the (chronological) publish log share a key closer
together than the cooldown. -/
def noRepeatWithin (cd : ℤ) : List (String × ℤ) → Prop
  | [] => True
  | (k, t) :: rest => (∀ p ∈ rest, p.1 = k → cd ≤ p.2 - t) ∧ noRepeatWithin cd rest

/-! ## Orchestrator action server (ActionServer, storage/actions_repo.go) -/

/-- A row of the actions table (storage.ActionRow); action type and status
are stored as their integer codes. -/
structure ActionRow where
  id : String
  incidentId : String
  proposedAtTick : ℤ
  actionType : ℤ
  targetId : String
  status : ℤ
  reason : String
  parameters : List (String × String)
  createdAtMs : ℤ
  executedAtMs : Option ℤ
  resultMessage : String
deriving DecidableEq, Repr

/-- ActionsRepository.GetByID over an in-memory table. -/
def getByID (repo : List ActionRow) (id : String) : Option ActionRow :=
  repo.find? (fun a => a.id == id)

/-- ActionsRepository.UpdateStatus: set status, result_message and
executed_at on the row with the given id. -/
def updateStatusRepo (repo : List ActionRow) (id : String) (statusCode : ℤ)
    (resultMessage : String) (nowMs : ℤ) : List ActionRow :=
  repo.map (fun a =>
    if a.id == id then
      { a with
        status := statusCode
        resultMessage := resultMessage
        executedAtMs := some nowMs }
    else a)

/-- ActionsRepository.Approve: UpdateStatus with code 2 (APPROVED) and an
empty result message. -/
def approveRepo (repo : List ActionRow) (id : String) (nowMs : ℤ) : List ActionRow :=
  updateStatusRepo repo id 2 "" nowMs

/-- An ops.commands payload (opsv1.ApplyActionCommand). -/
structure ApplyActionCommand where
  actionId : String
  targetTickId : ℤ
  actionType : ℤ
  targetId : String
  parameters : List (String × String)
deriving DecidableEq, Repr

/-- The connect RPC codes the action server can answer with. -/
inductive RpcCode where
  | ok
  | notFound
  | internal
deriving DecidableEq, Repr

/-- ActionServer.ApproveAction against a healthy repository: look up the
action (missing → NOT_FOUND), unconditionally flip its status to APPROVED,
build the command from the stored row, and publish it; a publish failure
returns INTERNAL (with the approval already persisted). The middle
component is the successfully published command, if any. -/
def approveAction (repo : List ActionRow) (actionID : String) (nowMs : ℤ)
    (publishOk : Bool) : List ActionRow × Option ApplyActionCommand × RpcCode :=
  match getByID repo actionID with
  | none => (repo, none, RpcCode.notFound)
  | some action =>
    let repo2 := approveRepo repo actionID nowMs
    let cmd : ApplyActionCommand :=
      { actionId := actionID
        targetTickId := action.proposedAtTick
        actionType := action.actionType
        targetId := action.targetId
        parameters := action.parameters }
    if publishOk then (repo2, some cmd, RpcCode.ok)
    else (repo2, none, RpcCode.internal)

/-! ## Claim theorems for the detector -/

/-- C2: for a (entity, rule) key whose updated window holds at least 3
samples, an incident is emitted exactly when the breach fraction exceeds
0.7 and the latch is clear (and the latch is then set); while the latch is
set nothing is emitted, and the latch clears exactly when the fraction
drops below 0.3; fractions in [0.3, 0.7] cause no transition; and a window
with fewer than 3 samples never fires nor moves the latch. -/
theorem detector_hysteresis (r : Rule) (st : KeyState) (value : ℚ) (now : ℤ) :
    ((detectorStepKey r st value now).2 = true ↔
      3 ≤ (postWindow r st.samples value now).length ∧
      breachFrac r (postWindow r st.samples value now) > 7/10 ∧ st.active = false) ∧
    ((detectorStepKey r st value now).2 = true →
      (detectorStepKey r st value now).1.active = true) ∧
    (st.active = true → (detectorStepKey r st value now).2 = false) ∧
    (st.active = true →
      ((detectorStepKey r st value now).1.active = false ↔
        3 ≤ (postWindow r st.samples value now).length ∧
        breachFrac r (postWindow r st.samples value now) < 3/10)) ∧
    (3 ≤ (postWindow r st.samples value now).length →
      3/10 ≤ breachFrac r (postWindow r st.samples value now) →
      breachFrac r (postWindow r st.samples value now) ≤ 7/10 →
      (detectorStepKey r st value now).1.active = st.active ∧
      (detectorStepKey r st value now).2 = false) ∧
    ((postWindow r st.samples value now).length < 3 →
      (detectorStepKey r st value now).2 = false ∧
      (detectorStepKey r st value now).1.active = st.active) ∧
    ((detectorStepKey r st value now).1.samples = postWindow r st.samples value now) := by
  simp only [detectorStepKey]
  split_ifs with h1 h2 h3
  · refine ⟨⟨?_, ?_⟩, ?_, ?_, ?_, ?_, ?_, rfl⟩
    · intro h
      simp at h
    · intro h
      exact absurd h.1 (by omega)
    · intro h
      simp at h
    · intro _
      rfl
    · intro ha
      refine iff_of_false (by simp [ha]) ?_
      intro h
      exact absurd h.1 (by omega)
    · intro _ _ _
      exact ⟨rfl, rfl⟩
    · intro _
      exact ⟨rfl, rfl⟩
  · refine ⟨iff_of_true rfl ⟨by omega, h2.1, h2.2⟩, ?_, ?_, ?_, ?_, ?_, rfl⟩
    · intro _
      rfl
    · intro ha
      rw [h2.2] at ha
      simp at ha
    · intro ha
      rw [h2.2] at ha
      simp at ha
    · intro _ _ h
      exact absurd h2.1 (not_lt.mpr h)
    · intro h
      exact absurd h h1
  · refine ⟨⟨?_, ?_⟩, ?_, ?_, ?_, ?_, ?_, rfl⟩
    · intro h
      simp at h
    · intro h
      have hx := h.2.2
      rw [h3.2] at hx
      simp at hx
    · intro h
      simp at h
    · intro _
      rfl
    · intro _
      exact iff_of_true rfl ⟨by omega, h3.1⟩
    · intro _ h _
      exact absurd h3.1 (not_lt.mpr h)
    · intro h
      exact absurd h h1
  · refine ⟨⟨?_, ?_⟩, ?_, ?_, ?_, ?_, ?_, rfl⟩
    · intro h
      simp at h
    · intro h
      exact absurd ⟨h.2.1, h.2.2⟩ h2
    · intro h
      simp at h
    · intro _
      rfl
    · intro ha
      refine ⟨?_, ?_⟩
      · intro hf
        rw [ha] at hf
        simp at hf
      · intro h
        exact absurd ⟨h.2, ha⟩ h3
    · intro _ _ _
      exact ⟨rfl, rfl⟩
    · intro h
      exact absurd h h1

/-- The high_error_rate rule, used by the detector witness. -/
def witRule : Rule :=
  { name := "high_error_rate"
    metricName := "error_rate_percent"
    operator := "gt"
    threshold := 5
    windowSeconds := 30
    severity := IncidentSeverity.warning }

/-- A concrete key state with two breaching samples and a clear latch. -/
def witKeyState : KeyState :=
  { samples := [(12, 1000), (12, 2000)], active := false }

/-- C2 witness: a third breaching sample fires the detector at a concrete
window. -/
theorem detector_hysteresis_witness :
    (detectorStepKey witRule witKeyState 12 3000).2 = true :=
  (detector_hysteresis witRule witKeyState 12 3000).1.mpr
    (by norm_num [postWindow, evictStartIdx, breachFrac, breachCount, witRule, witKeyState,
      Rule.evaluate, List.findIdx?])

/-! ## Claim theorems for the decider -/

/-- C4: the decider proposes at most one action per incident (and only the
one decideAction yields); a proposed action has status PENDING, target_id
equal to affected_ids[0] and proposed_at_tick equal to the incident's
detection tick; and the action type follows the decision table, with any
rule name outside the table yielding no action. -/
theorem decider_decision_table :
    (∀ (freshId : String) (nowMs : ℤ) (inc : Incident) (a : Action),
        decideAction freshId nowMs inc = some a →
        a.status = ActionStatus.pending ∧
        inc.affectedIds.head? = some a.targetId ∧
        a.proposedAtTick = inc.detectedAtTick ∧
        ((inc.ruleName = "high_error_rate" ∨ inc.ruleName = "critical_error_rate") →
          a.actionType = ActionType.restartService) ∧
        (inc.ruleName = "high_cpu_usage" ∧ inc.severity = IncidentSeverity.warning →
          a.actionType = ActionType.rebalanceTraffic) ∧
        (inc.ruleName = "critical_cpu_usage" ∧ inc.severity = IncidentSeverity.critical →
          a.actionType = ActionType.scaleUp) ∧
        (inc.ruleName = "high_memory_usage" → a.actionType = ActionType.restartService) ∧
        (inc.ruleName = "high_latency" → a.actionType = ActionType.scaleUp)) ∧
    (∀ (freshId : String) (nowMs : ℤ) (inc : Incident),
        inc.ruleName ∉ ["high_error_rate", "critical_error_rate", "high_cpu_usage",
          "critical_cpu_usage", "high_memory_usage", "high_latency"] →
        decideAction freshId nowMs inc = none) ∧
    (∀ (st : DeciderState) (inc : Incident) (nowMs : ℤ) (freshId : String) (pok : Bool)
        (r : DeciderState × Option Action × Option String) (a : Action),
        processIncident st inc nowMs freshId pok = some r → r.2.1 = some a →
        decideAction freshId nowMs inc = some a) := by
  refine ⟨?_, ?_, ?_⟩
  · intro freshId nowMs inc a h
    simp only [decideAction] at h
    split at h
    · simp at h
    · next target rest heq =>
      split_ifs at h with h1 h2 hsev h3 h4
      all_goals
        injection h with hEq
        subst hEq
        refine ⟨rfl, by simp [heq], rfl, ?_, ?_, ?_, ?_, ?_⟩ <;> intro hx <;>
          first | rfl | simp_all
  · intro freshId nowMs inc hnotin
    simp only [List.mem_cons, List.not_mem_nil, not_or] at hnotin
    simp only [decideAction]
    split
    · rfl
    · split_ifs <;> simp_all
  · intro st inc nowMs freshId pok r a hp hpub
    simp only [processIncident] at hp
    split at hp
    · simp at hp
    · next target rest heq =>
      split_ifs at hp with hcd hpk
      · injection hp with hEq
        subst hEq
        simp at hpub
      · split at hp
        · injection hp with hEq
          subst hEq
          simp at hpub
        · next a' hda =>
          injection hp with hEq
          subst hEq
          simp only [Option.some.injEq] at hpub
          subst hpub
          exact hda
      · split at hp
        · injection hp with hEq
          subst hEq
          simp at hpub
        · next a' hda =>
          injection hp with hEq
          subst hEq
          simp at hpub

/-- A concrete high_cpu_usage incident with WARNING severity, used by the
decider witnesses. -/
def witIncident : Incident :=
  { id := "inc-1"
    detectedAtTick := 42
    detectedAtWallMs := 500
    severity := IncidentSeverity.warning
    title := "high_cpu_usage: cpu_usage_percent on node node-1"
    description := "cpu_usage_percent breached threshold"
    sourceService := "signal-service"
    affectedIds := ["node-1"]
    ruleName := "high_cpu_usage"
    metrics := [("cpu_usage_percent", 91)]
    resolved := false }

/-- The action decideAction builds for witIncident. -/
def witAction : Action :=
  { id := "act-1"
    incidentId := "inc-1"
    proposedAtTick := 42
    targetId := "node-1"
    status := ActionStatus.pending
    actionType := ActionType.rebalanceTraffic
    parameters := []
    createdAtTick := 42
    createdAtWallMs := 500 }

/-- C4 witness: the decision table applied to a concrete WARNING
high_cpu_usage incident yields a PENDING REBALANCE_TRAFFIC action. -/
theorem decider_decision_table_witness :
    witAction.actionType = ActionType.rebalanceTraffic ∧
    witAction.status = ActionStatus.pending :=
  have h := decider_decision_table.1 "act-1" 500 witIncident witAction rfl
  ⟨h.2.2.2.2.1 ⟨rfl, rfl⟩, h.1⟩

/-- C5: ProcessIncident crashes (out-of-bounds index on affected_ids[0]
while building the cooldown key, modelled as none) exactly on incidents
with empty affected_ids — despite the length guard inside decideAction,
which is dead code on that path — and never crashes on incidents with
non-empty affected_ids. -/
theorem decider_empty_affected_crash :
    (∀ (st : DeciderState) (inc : Incident) (nowMs : ℤ) (freshId : String) (pok : Bool),
        inc.affectedIds = [] → processIncident st inc nowMs freshId pok = none) ∧
    (∀ (freshId : String) (nowMs : ℤ) (inc : Incident),
        inc.affectedIds = [] → decideAction freshId nowMs inc = none) ∧
    (∀ (st : DeciderState) (inc : Incident) (nowMs : ℤ) (freshId : String) (pok : Bool),
        inc.affectedIds ≠ [] →
        (processIncident st inc nowMs freshId pok).isSome = true) := by
  refine ⟨?_, ?_, ?_⟩
  · intro st inc nowMs freshId pok h
    simp [processIncident, h]
  · intro freshId nowMs inc h
    simp [decideAction, h]
  · intro st inc nowMs freshId pok h
    simp only [processIncident]
    split
    · next heq => exact absurd heq h
    · next target rest heq =>
      split_ifs with hcd hpk
      · rfl
      · rcases hda : decideAction freshId nowMs inc with _ | a <;> simp [hda]
      · rcases hda : decideAction freshId nowMs inc with _ | a <;> simp [hda]

/-- A concrete incident with empty affected_ids. -/
def witIncidentEmpty : Incident :=
  { id := "inc-0"
    detectedAtTick := 5
    detectedAtWallMs := 0
    severity := IncidentSeverity.critical
    title := "critical_error_rate"
    description := ""
    sourceService := "signal-service"
    affectedIds := []
    ruleName := "critical_error_rate"
    metrics := [("error_rate_percent", 12)]
    resolved := false }

/-- C5 witness: the concrete empty-affected incident crashes the decider. -/
theorem decider_empty_affected_crash_witness :
    processIncident initialDeciderState witIncidentEmpty 0 "act-2" true = none :=
  decider_empty_affected_crash.1 initialDeciderState witIncidentEmpty 0 "act-2" true rfl

/-! ## Helper lemmas for the cooldown claim -/

theorem lookupKey_setKey (m : List (String × ℤ)) (k k' : String) (v : ℤ) :
    lookupKey (setKey m k v) k' = if k = k' then some v else lookupKey m k' := by
  by_cases h : k = k'
  · subst h
    simp [lookupKey, setKey]
  · simp only [lookupKey, setKey, List.find?]
    have : (k == k') = false := by simpa using h
    simp [this, if_neg h]

theorem processIncident_recentActions (st : DeciderState) (inc : Incident) (nowMs : ℤ)
    (freshId : String) (pok : Bool) (st2 : DeciderState) (pub : Option Action)
    (err : Option String)
    (h : processIncident st inc nowMs freshId pok = some (st2, pub, err)) :
    (pub = none ∧ st2.recentActions = st.recentActions) ∨
    (∃ a target rest', pub = some a ∧ inc.affectedIds = target :: rest' ∧
      st2.recentActions = setKey st.recentActions (cooldownKey inc target) nowMs ∧
      ∀ t, lookupKey st.recentActions (cooldownKey inc target) = some t →
        cooldownMs ≤ nowMs - t) := by
  simp only [processIncident] at h
  split at h
  · simp at h
  · next target rest heq =>
    split_ifs at h with hcd hpk
    · simp only [Option.some.injEq, Prod.mk.injEq] at h
      obtain ⟨h1, h2, _⟩ := h
      subst h1
      exact Or.inl ⟨h2.symm, rfl⟩
    · split at h
      · simp only [Option.some.injEq, Prod.mk.injEq] at h
        obtain ⟨h1, h2, _⟩ := h
        subst h1
        exact Or.inl ⟨h2.symm, rfl⟩
      · next a' hda =>
        simp only [Option.some.injEq, Prod.mk.injEq] at h
        obtain ⟨h1, h2, _⟩ := h
        subst h1
        refine Or.inr ⟨a', target, rest, h2.symm, heq, rfl, ?_⟩
        intro t ht
        simp only [onCooldown, ht, decide_eq_true_eq] at hcd
        omega
    · split at h
      · simp only [Option.some.injEq, Prod.mk.injEq] at h
        obtain ⟨h1, h2, _⟩ := h
        subst h1
        exact Or.inl ⟨h2.symm, rfl⟩
      · next a' hda =>
        simp only [Option.some.injEq, Prod.mk.injEq] at h
        obtain ⟨h1, h2, _⟩ := h
        subst h1
        exact Or.inl ⟨h2.symm, rfl⟩

theorem deciderRun_gap (evs : List DecEvent) (st : DeciderState)
    (hmono : evs.Pairwise (fun a b => a.nowMs ≤ b.nowMs))
    (hst : ∀ k t, lookupKey st.recentActions k = some t → ∀ ev ∈ evs, t ≤ ev.nowMs) :
    noRepeatWithin cooldownMs (deciderRun st evs).2 ∧
    (∀ k t, lookupKey st.recentActions k = some t →
      ∀ p ∈ (deciderRun st evs).2, p.1 = k → cooldownMs ≤ p.2 - t) := by
  induction evs generalizing st with
  | nil =>
    exact ⟨trivial, fun k t _ p hp _ => absurd hp (List.not_mem_nil p)⟩
  | cons ev rest ih =>
    obtain ⟨hhead, hmono'⟩ := List.pairwise_cons.mp hmono
    simp only [deciderRun]
    cases hpi : processIncident st ev.inc ev.nowMs ev.freshId ev.publishOk with
    | none =>
      exact ⟨trivial, fun k t _ p hp _ => absurd hp (List.not_mem_nil p)⟩
    | some res =>
      obtain ⟨st2, pub, err⟩ := res
      rcases processIncident_recentActions st ev.inc ev.nowMs ev.freshId ev.publishOk
          st2 pub err hpi with
        ⟨hpubnone, hrec⟩ | ⟨a, target, rest', hpub, hids, hrec, hguard⟩
      · subst hpubnone
        have ih2 := ih st2 hmono'
          (fun k t hk ev' hev' => hst k t (hrec ▸ hk) ev' (List.mem_cons_of_mem _ hev'))
        constructor
        · exact ih2.1
        · intro k t hk p hp hpk
          exact ih2.2 k t (by rw [hrec]; exact hk) p hp hpk
      · subst hpub
        rw [hids]
        have hst2 : ∀ k t, lookupKey st2.recentActions k = some t →
            ∀ ev' ∈ rest, t ≤ ev'.nowMs := by
          intro k t hk ev' hev'
          rw [hrec, lookupKey_setKey] at hk
          by_cases hkk : cooldownKey ev.inc target = k
          · rw [if_pos hkk] at hk
            injection hk with hk
            subst hk
            exact hhead ev' hev'
          · rw [if_neg hkk] at hk
            exact hst k t hk ev' (List.mem_cons_of_mem _ hev')
        have ih2 := ih st2 hmono' hst2
        have hself : lookupKey st2.recentActions (cooldownKey ev.inc target) = some ev.nowMs := by
          rw [hrec, lookupKey_setKey, if_pos rfl]
        constructor
        · refine ⟨?_, ih2.1⟩
          intro p hp hpk
          exact ih2.2 (cooldownKey ev.inc target) ev.nowMs hself p hp hpk
        · intro k t hk p hp hpk
          rcases List.mem_cons.mp hp with hpe | hptail
          · subst hpe
            simp only at hpk
            subst hpk
            exact hguard t hk
          · by_cases hkk : cooldownKey ev.inc target = k
            · have h1 := ih2.2 k ev.nowMs (by rw [← hkk]; exact hself) p hptail hpk
              have h2 := hguard t (by rw [hkk]; exact hk)
              have h0 : (0 : ℤ) ≤ cooldownMs := by norm_num [cooldownMs]
              omega
            · have hk2 : lookupKey st2.recentActions k = some t := by
                rw [hrec, lookupKey_setKey, if_neg hkk]
                exact hk
              exact ih2.2 k t hk2 p hptail hpk

/-! ## Claim theorems for the cooldown -/

/-- C3: when the last emission recorded for the (rule_name, affected_ids[0])
key is more recent than the cooldown duration, ProcessIncident persists the
incident but returns without proposing or publishing any action; and over
any chronologically ordered run from the initial decider state, no two
published actions for the same key are ever closer than the cooldown. -/
theorem decider_cooldown :
    (∀ (st : DeciderState) (inc : Incident) (nowMs : ℤ) (freshId : String) (pok : Bool)
        (target : String) (rest' : List String) (t : ℤ),
        inc.affectedIds = target :: rest' →
        lookupKey st.recentActions (cooldownKey inc target) = some t →
        nowMs - t < cooldownMs →
        processIncident st inc nowMs freshId pok =
          some ({ st with storedIncidents := st.storedIncidents ++ [inc] }, none, none)) ∧
    (∀ evs : List DecEvent,
        evs.Pairwise (fun a b => a.nowMs ≤ b.nowMs) →
        noRepeatWithin cooldownMs (deciderRun initialDeciderState evs).2) := by
  constructor
  · intro st inc nowMs freshId pok target rest' t hids hlast hrecent
    simp only [processIncident, hids]
    have hcd : onCooldown st.recentActions (cooldownKey inc target) nowMs = true := by
      simp only [onCooldown, hlast, decide_eq_true_eq]
      exact hrecent
    rw [if_pos hcd]
  · intro evs hmono
    refine (deciderRun_gap evs initialDeciderState hmono ?_).1
    intro k t hk
    simp [initialDeciderState, lookupKey] at hk

/-- The decider state after one published high_cpu_usage action for
node-1, recorded at millisecond 1000. -/
def witCooldownState : DeciderState :=
  { recentActions := [("high_cpu_usage:node-1", 1000)]
    storedIncidents := []
    storedActions := [] }

/-- C3 witness: a second incident on the same key 19 seconds later is
persisted but produces no action. -/
theorem decider_cooldown_witness :
    processIncident witCooldownState witIncident 20000 "act-3" true =
      some ({ witCooldownState with
        storedIncidents := witCooldownState.storedIncidents ++ [witIncident] }, none, none) :=
  decider_cooldown.1 witCooldownState witIncident 20000 "act-3" true "node-1" [] 1000
    rfl rfl (by norm_num [cooldownMs])

/-! ## Claim theorems for the action server -/

theorem getByID_updateStatusRepo (repo : List ActionRow) (id : String) (stc : ℤ)
    (msg : String) (nowMs : ℤ) :
    getByID (updateStatusRepo repo id stc msg nowMs) id =
      (getByID repo id).map (fun a =>
        { a with status := stc, resultMessage := msg, executedAtMs := some nowMs }) := by
  unfold getByID updateStatusRepo
  rw [List.find?_map]
  have hpf : ((fun r : ActionRow => r.id == id) ∘ (fun a : ActionRow =>
      if a.id == id then
        { a with status := stc, resultMessage := msg, executedAtMs := some nowMs }
      else a)) = fun r : ActionRow => r.id == id := by
    funext r
    by_cases h : r.id = id <;> simp [h]
  rw [hpf]
  cases hfind : List.find? (fun r : ActionRow => r.id == id) repo with
  | none => rfl
  | some r =>
    have hr := List.find?_some hfind
    simp only [beq_iff_eq] at hr
    simp [hr]

/-- C1: ApproveAction on an id with no stored action returns NOT_FOUND,
leaves the repository unchanged and publishes no command; on a stored
action it sets the status to APPROVED (code 2) unconditionally, regardless
of the prior status, and publishes an ApplyActionCommand whose action_type,
target_id and parameters equal the stored row's fields and whose
target_tick_id is the row's proposed_at_tick; a publish failure returns
INTERNAL (still publishing nothing, with the approval already stored). -/
theorem approve_action_spec :
    (∀ (repo : List ActionRow) (id : String) (nowMs : ℤ) (pok : Bool),
        getByID repo id = none →
        approveAction repo id nowMs pok = (repo, none, RpcCode.notFound)) ∧
    (∀ (repo : List ActionRow) (id : String) (nowMs : ℤ) (pok : Bool) (a : ActionRow),
        getByID repo id = some a →
        getByID (approveAction repo id nowMs pok).1 id =
          some { a with
            status := ActionStatus.approved.code
            resultMessage := ""
            executedAtMs := some nowMs } ∧
        (pok = true →
          (approveAction repo id nowMs pok).2.1 =
            some { actionId := id
                   targetTickId := a.proposedAtTick
                   actionType := a.actionType
                   targetId := a.targetId
                   parameters := a.parameters } ∧
          (approveAction repo id nowMs pok).2.2 = RpcCode.ok) ∧
        (pok = false →
          (approveAction repo id nowMs pok).2.1 = none ∧
          (approveAction repo id nowMs pok).2.2 = RpcCode.internal)) := by
  constructor
  · intro repo id nowMs pok h
    simp [approveAction, h]
  · intro repo id nowMs pok a h
    refine ⟨?_, ?_, ?_⟩
    · simp only [approveAction, h]
      split_ifs with hpk <;>
        simp [approveRepo, getByID_updateStatusRepo, h, ActionStatus.code]
    · intro hpk
      simp [approveAction, h, hpk]
    · intro hpk
      simp [approveAction, h, hpk]

/-- A stored action row that is already REJECTED (status code 3), used to
exhibit the unconditional approval. -/
def witActionRow : ActionRow :=
  { id := "act-9"
    incidentId := "inc-9"
    proposedAtTick := 42
    actionType := 5
    targetId := "node-1"
    status := 3
    reason := "r"
    parameters := [("pct", "10")]
    createdAtMs := 100
    executedAtMs := none
    resultMessage := "old" }

/-- C1 witness: approving a stored (already rejected) action flips it to
APPROVED. -/
theorem approve_action_spec_witness :
    getByID (approveAction [witActionRow] "act-9" 777 true).1 "act-9" =
      some { witActionRow with
        status := ActionStatus.approved.code
        resultMessage := ""
        executedAtMs := some 777 } :=
  (approve_action_spec.2 [witActionRow] "act-9" 777 true witActionRow rfl).1

end Parallax
